import Mathlib

/-!
Verification of the actuator/thermostat core of the RaspberryPi
"VytvarejChytraZarizeni" repository (two streams: the top-level
`actuators.py`/`thermostat.py` and the `web/` package with
`actuators/manager.py`, `actuators/params.py`, `actuators/devices.py`,
`thermostat.py`).

The Python code is shallowly embedded: each Python object becomes a Lean
structure, each method a total Lean function, dictionaries become ordered
association lists (Python dicts keep insertion order; assignment to an
existing key updates in place, a new key appends), Python floats become
exact rationals, and raised exceptions become explicit error values of
type `PyErr` that the embedding threads through.  Methods that can both
raise and mutate return a pair of the result (`Except PyErr alpha`) and the
state after the call, so that "raises and leaves the state unchanged" is
expressible.  External collaborators (the sqlite nonvolatile_params table
behind `SqlSensorData`, the gpiozero devices, and the sensor-data table)
are modelled as explicit state: a key/value store with an availability
flag (an unavailable store makes every db call raise), a device record
with a physical output plus fault flags (a faulty command or a faulty
read raises), and a read-only temperature oracle.
-/

set_option autoImplicit false

namespace PyModel

/-- Ordered association-list lookup, mirroring a Python dict read
`d[k]` / `d.get(k)`: the first (and by construction only) binding for
the key is returned. -/
def alookup {α : Type} (l : List (String × α)) (k : String) : Option α :=
  match l with
  | [] => none
  | (k1, v) :: t => if k1 = k then some v else alookup t k

/-- Ordered association-list write, mirroring a Python dict assignment
`d[k] = v`: an existing binding is updated in place, a new key is
appended at the end (Python dicts preserve insertion order). -/
def aset {α : Type} (l : List (String × α)) (k : String) (v : α) : List (String × α) :=
  match l with
  | [] => [(k, v)]
  | (k1, v1) :: t => if k1 = k then (k1, v) :: t else (k1, v1) :: aset t k v

/-- Membership test, mirroring Python `k in d`. -/
def ahas {α : Type} (l : List (String × α)) (k : String) : Bool :=
  (alookup l k).isSome

/-- Character-list core of Python `s.startswith(pre)` (kernel-reducible
replacement for the library routine). -/
def listIsPre : List Char → List Char → Bool
  | [], _ => true
  | _ :: _, [] => false
  | a :: as, b :: bs => a = b && listIsPre as bs

/-- Python `s.startswith(pre)`. -/
def strStartsWith (s pre : String) : Bool :=
  listIsPre pre.toList s.toList

/-- Python `s.removeprefix(pre)` for a prefix of known length `n` (the
call sites always pass the literal prefix length). -/
def strDrop (s : String) (n : Nat) : String :=
  String.mk (s.toList.drop n)

theorem alookup_aset_self {α : Type} (l : List (String × α)) (k : String) (v : α) :
    alookup (aset l k v) k = some v := by
  induction l with
  | nil => simp [aset, alookup]
  | cons h t ih =>
    obtain ⟨k1, v1⟩ := h
    by_cases hk : k1 = k
    · simp [aset, alookup, hk]
    · simp [aset, alookup, hk, ih]

theorem alookup_aset_ne {α : Type} (l : List (String × α)) (k k1 : String) (v : α)
    (h : k1 ≠ k) : alookup (aset l k v) k1 = alookup l k1 := by
  have h1 : ¬k = k1 := fun hh => h hh.symm
  induction l with
  | nil => simp [aset, alookup, h1]
  | cons hd t ih =>
    obtain ⟨k2, v2⟩ := hd
    by_cases hk : k2 = k
    · subst hk
      simp [aset, alookup, h1]
    · simp [aset, alookup, hk, ih]

/-- The runtime values the actuator code stores in parameter
dictionaries and receives back from the database layer: Python bools,
ints, floats and strings.  Floats are modelled as exact rationals. -/
inductive PValue : Type
  | pBool (b : Bool)
  | pInt (n : Int)
  | pFloat (q : ℚ)
  | pStr (s : String)
  deriving DecidableEq, Repr

open PValue

/-- Python truthiness `bool(v)` for the value kinds above: `bool` is
itself, numbers are compared with zero, and a string is truthy exactly
when it is non-empty (so `bool("False")` is `True`). -/
def pyBool : PValue → Bool
  | pBool b => b
  | pInt n => n ≠ 0
  | pFloat q => q ≠ 0
  | pStr s => s ≠ ""

/-- Digits of a decimal literal read left to right; `none` as soon as a
non-digit character appears. -/
def digitsVal : List Char → Option Nat
  | [] => some 0
  | c :: t =>
    if c.isDigit then
      (digitsVal t).map (fun n => (c.toNat - '0'.toNat) * 10 ^ t.length + n)
    else
      none

/-- Split a character list at the first occurrence of `c`, mirroring
Python `s.split(c, 1)` when the separator occurs. -/
def splitOnce (c : Char) : List Char → Option (List Char × List Char)
  | [] => none
  | x :: t =>
    if x = c then some ([], t)
    else (splitOnce c t).map (fun p => (x :: p.1, p.2))

/-- Model of Python `int(s)` on the strings the database layer produces:
an optional sign followed by at least one decimal digit; `none` models a
raised `ValueError`. -/
def pyParseInt (s : String) : Option Int :=
  match s.toList with
  | [] => none
  | '-' :: t =>
    match t with
    | [] => none
    | _ => (digitsVal t).map (fun n => -(n : Int))
  | '+' :: t =>
    match t with
    | [] => none
    | _ => (digitsVal t).map (fun n => (n : Int))
  | l => (digitsVal l).map (fun n => (n : Int))

/-- Unsigned decimal core of Python `float(s)`: digits with an optional
single decimal point; at least one digit must be present. -/
def pyParseFloatCore (l : List Char) : Option ℚ :=
  match splitOnce '.' l with
  | none => (digitsVal l).map (fun n => (n : ℚ))
  | some (a, b) =>
    if a = [] ∧ b = [] then none
    else
      match digitsVal a, digitsVal b with
      | some na, some nb => some ((na : ℚ) + (nb : ℚ) / (10 : ℚ) ^ b.length)
      | _, _ => none

/-- Model of Python `float(s)` on decimal literals (the only strings the
code ever feeds it): optional sign, digits, optional fractional part.
`none` models a raised `ValueError`. -/
def pyParseFloat (s : String) : Option ℚ :=
  match s.toList with
  | '-' :: t => (pyParseFloatCore t).map (fun q => -q)
  | '+' :: t => pyParseFloatCore t
  | l => pyParseFloatCore l

/-- Python `float(v)` applied to a runtime value; `none` models a raised
exception (`float(True)` is `1.0`, `float(False)` is `0.0`). -/
def pyFloatOf : PValue → Option ℚ
  | pBool b => some (if b then 1 else 0)
  | pInt n => some (n : ℚ)
  | pFloat q => some q
  | pStr s => pyParseFloat s

/-- Smallest exponent `k` with `den` dividing `10 ^ k`, searched up to
the width needed for any IEEE double (every binary float has a
terminating decimal expansion). -/
def decExp (den : Nat) : Option Nat :=
  (List.range 1200).find? (fun k => 10 ^ k % den = 0)

/-- Render a non-negative rational the way Python `str` renders the
corresponding float value: integral values get a trailing `.0`, other
terminating decimals are written exactly. -/
def pyStrFloatNN (q : ℚ) : String :=
  match decExp q.den with
  | some 0 => toString q.num ++ ".0"
  | some (k + 1) =>
    let n : Nat := q.num.toNat * (10 ^ (k + 1) / q.den)
    let ip : Nat := n / 10 ^ (k + 1)
    let fp : Nat := n % 10 ^ (k + 1)
    let fs : String := toString fp
    let pad : String := String.mk (List.replicate (k + 1 - fs.length) '0')
    toString ip ++ "." ++ pad ++ fs
  | none => toString q.num ++ "/" ++ toString q.den

/-- Python `str(v)` for a float value. -/
def pyStrFloat (q : ℚ) : String :=
  if q < 0 then "-" ++ pyStrFloatNN (-q) else pyStrFloatNN q

/-- Python `str(v)` for the runtime values the code persists
(`db.save_actuator_param` stores `str(value)`). -/
def pyStr : PValue → String
  | pBool b => if b then "True" else "False"
  | pInt n => toString n
  | pFloat q => pyStrFloat q
  | pStr s => s

/-- Value parsing shared by `ActuatorManager.load_param` and
`SqlSensorData.load_actuator_params` (the two sites carry the identical
code): `"True"`/`"False"` become bools, strings containing `"."` are
tried as floats, other strings as ints, and anything unparsable stays a
string. -/
def pyParseNV (v : String) : PValue :=
  if v = "True" then pBool true
  else if v = "False" then pBool false
  else if v.toList.contains '.' then
    match pyParseFloat v with
    | some q => pFloat q
    | none => pStr v
  else
    match pyParseInt v with
    | some n => pInt n
    | none => pStr v

/-- The exceptions the embedded code can raise, by raise site:
`unknownActuator` is the `KeyError` on an unregistered actuator name,
`invalidMode` the `ValueError` from `set_relay_mode` validation,
`outOfRange` the `ValueError` from `set_setpoint` range validation, and
`convError` a `ValueError` from a failed `float()` conversion. -/
inductive PyErr : Type
  | unknownActuator
  | invalidMode
  | outOfRange
  | convError
  deriving DecidableEq, Repr

/-- The `nonvolatile_params` key/value table behind `SqlSensorData`,
plus an availability flag: when `ok` is false every database call raises
(modelling an unreachable sqlite file or a closed connection). -/
structure DbState : Type where
  kv : List (String × String)
  ok : Bool

/-- Embeds `SqlSensorData.nv_set`: `none` models the raised exception when the
store is unavailable, otherwise the key is inserted or updated. -/
def nv_set (db : DbState) (key value : String) : Option DbState :=
  if db.ok then some { db with kv := aset db.kv key value } else none

/-- Embeds `SqlSensorData.nv_get`: `none` models a raised exception, `some r`
the returned row (`r = none` when the key does not exist). -/
def nv_get (db : DbState) (key : String) : Option (Option String) :=
  if db.ok then some (alookup db.kv key) else none

end PyModel

namespace Act

/-!
Embedding of the top-level `src/actuators.py` `ActuatorManager` (the
stream that implements the spec's validation and persistence
contracts).  Every method runs inside `with self._lock`; those critical
sections are modelled as atomic state transformers.
-/

open PyModel PyModel.PValue

/-- A gpiozero output device (`LED` / `OutputDevice`) as the manager
sees it: a physical output plus fault flags.  `cmdFails` makes
`on()`/`off()` raise, `readFails` makes `is_active` raise; a raised
command leaves the physical output unchanged. -/
structure Device : Type where
  physical : Bool
  cmdFails : Bool
  readFails : Bool
  deriving DecidableEq, Repr

/-- Embeds `dev.on()` / `dev.off()`: `none` models the raised hardware
exception. -/
def devSet (d : Device) (onb : Bool) : Option Device :=
  if d.cmdFails then none else some { d with physical := onb }

/-- Embeds `dev.is_active`: `none` models a raised read. -/
def devIsActive (d : Device) : Option Bool :=
  if d.readFails then none else some d.physical

/-- The `ActuatorManager` object of `src/actuators.py`: `config` holds,
for each configured name, the device `init_if_needed` would obtain from
gpiozero (`none` when construction fails or the library is missing),
`devices` is `self._devices`, `states` is `self._states`, `params` is
`self._params`, `db` is `self._db` (`none` when `SqlSensorData` could
not be opened), and `inited` is `self._inited`. -/
structure AmState : Type where
  config : List (String × Option Device)
  devices : List (String × Option Device)
  states : List (String × Bool)
  params : List (String × List (String × PValue))
  db : Option DbState
  inited : Bool

/-- Key layout `f"{NV_PREFIX}{name}-{param}"` with `NV_PREFIX =
"actuator-"`. -/
def nvKey (name param : String) : String :=
  "actuator-" ++ name ++ "-" ++ param

/-- Embeds `ActuatorManager.save_param` (src/actuators.py:177): no-op without
a database, `KeyError` for an unregistered name, no-op for an uncached
parameter, and a best-effort `nv_set` whose failure is swallowed. -/
def save_param (s : AmState) (name param : String) : Except PyErr Unit × AmState :=
  match s.db with
  | none => (.ok (), s)
  | some db =>
    if ¬ ahas s.params name then (.error .unknownActuator, s)
    else
      match (alookup s.params name).bind (fun m => alookup m param) with
      | none => (.ok (), s)
      | some v =>
        match nv_set db (nvKey name param) (pyStr v) with
        | some db2 => (.ok (), { s with db := some db2 })
        | none => (.ok (), s)

/-- Embeds `ActuatorManager.set_param` (src/actuators.py:149): `KeyError` for
an unregistered name, otherwise the cache is written and, when
`persist`, `save_param` runs. -/
def set_param (s : AmState) (name param : String) (value : PValue) (persist : Bool) :
    Except PyErr Unit × AmState :=
  if ¬ ahas s.params name then (.error .unknownActuator, s)
  else
    let m := (alookup s.params name).getD []
    let s1 := { s with params := aset s.params name (aset m param value) }
    if persist then save_param s1 name param else (.ok (), s1)

/-- Embeds `ActuatorManager.load_param` (src/actuators.py:194): reads the
nonvolatile store, parses the string value, seeds the in-memory cache
with the parsed value and returns it; a database error or a missing key
yields `none` with the cache untouched. -/
def load_param (s : AmState) (name param : String) : Except PyErr (Option PValue) × AmState :=
  match s.db with
  | none => (.ok none, s)
  | some db =>
    if ¬ ahas s.params name then (.error .unknownActuator, s)
    else
      match nv_get db (nvKey name param) with
      | none => (.ok none, s)
      | some none => (.ok none, s)
      | some (some v) =>
        let parsed := pyParseNV v
        let m := (alookup s.params name).getD []
        (.ok (some parsed), { s with params := aset s.params name (aset m param parsed) })

/-- Embeds `ActuatorManager.get_param` (src/actuators.py:159): cache hit wins;
otherwise, with a database, `load_param` is consulted and its `None`
falls back to `default`. -/
def get_param (s : AmState) (name param : String) (dflt : PValue) :
    Except PyErr PValue × AmState :=
  if ¬ ahas s.params name then (.error .unknownActuator, s)
  else
    match (alookup s.params name).bind (fun m => alookup m param) with
    | some v => (.ok v, s)
    | none =>
      match s.db with
      | none => (.ok dflt, s)
      | some _ =>
        match load_param s name param with
        | (.ok v, s2) => (.ok (v.getD dflt), s2)
        | (.error e, s2) => (.error e, s2)

/-- Embeds `ALLOWED_RELAY_MODES = ("auto", "on", "off")`. -/
def allowedRelayModes : List String := ["auto", "on", "off"]

/-- Embeds `ActuatorManager.set_relay_mode` (src/actuators.py:243): raises
`ValueError` for a mode outside the enumerated set before touching any
state, `KeyError` for an unregistered name, then writes the cache and
makes a best-effort inline persistence write. -/
def set_relay_mode (s : AmState) (name mode : String) (persist : Bool) :
    Except PyErr Unit × AmState :=
  if ¬ mode ∈ allowedRelayModes then (.error .invalidMode, s)
  else if ¬ ahas s.params name then (.error .unknownActuator, s)
  else
    let m := (alookup s.params name).getD []
    let s1 := { s with params := aset s.params name (aset m "relay_mode" (pStr mode)) }
    match s1.db, persist with
    | some db, true =>
      match nv_set db (nvKey name "relay_mode") (pyStr (pStr mode)) with
      | some db2 => (.ok (), { s1 with db := some db2 })
      | none => (.ok (), s1)
    | _, _ => (.ok (), s1)

/-- Embeds `ActuatorManager.get_relay_mode` (src/actuators.py:256): `str` of
the cached value, defaulting to `"auto"`. -/
def get_relay_mode (s : AmState) (name : String) : Except PyErr String :=
  if ¬ ahas s.params name then .error .unknownActuator
  else .ok (pyStr ((alookup ((alookup s.params name).getD []) "relay_mode").getD (pStr "auto")))

/-- Embeds `ActuatorManager.set_setpoint` (src/actuators.py:262): the value is
a number by typing (the `isinstance` guard passes), the range check
`min_v <= setpoint <= max_v` raises `ValueError` before touching any
state, then the cache is written with `float(setpoint)` and a
best-effort inline persistence write runs. -/
def set_setpoint (s : AmState) (name : String) (v : ℚ) (persist : Bool) (minV maxV : ℚ) :
    Except PyErr Unit × AmState :=
  if ¬ (minV ≤ v ∧ v ≤ maxV) then (.error .outOfRange, s)
  else if ¬ ahas s.params name then (.error .unknownActuator, s)
  else
    let m := (alookup s.params name).getD []
    let s1 := { s with params := aset s.params name (aset m "setpoint" (pFloat v)) }
    match s1.db, persist with
    | some db, true =>
      match nv_set db (nvKey name "setpoint") (pyStr (pFloat v)) with
      | some db2 => (.ok (), { s1 with db := some db2 })
      | none => (.ok (), s1)
    | _, _ => (.ok (), s1)

/-- Embeds `ActuatorManager.get_setpoint` (src/actuators.py:277): `float` of
the cached value defaulting to `25.0`, with a failed conversion falling
back to `25.0`. -/
def get_setpoint (s : AmState) (name : String) : Except PyErr ℚ :=
  if ¬ ahas s.params name then .error .unknownActuator
  else
    .ok ((pyFloatOf ((alookup ((alookup s.params name).getD []) "setpoint").getD (pFloat 25))).getD 25)

/-- Body of `ActuatorManager.set_actor` (src/actuators.py:337) after
the name guard and `_ensure_inited`: the whole block is one `try`; any
hardware or `set_param` exception lands in the `except` branch, which
re-asserts `self._states[name] = bool(on)`, retries `set_param` with
its own swallow, and returns `False`.  The returned boolean reports
whether the hardware path was exercised. -/
def set_actor_body (s : AmState) (name : String) (onb : Bool) : Except PyErr Bool × AmState :=
  match (alookup s.devices name).getD none with
  | none =>
    let s1 := { s with states := aset s.states name onb }
    match set_param s1 name "state" (pBool onb) true with
    | (.ok _, s2) => (.ok false, s2)
    | (.error _, _) => (.ok false, s1)
  | some d =>
    match devSet d onb with
    | none =>
      let s1 := { s with states := aset s.states name onb }
      match set_param s1 name "state" (pBool onb) true with
      | (.ok _, s2) => (.ok false, s2)
      | (.error _, _) => (.ok false, s1)
    | some d2 =>
      let s1 := { s with devices := aset s.devices name (some d2), states := aset s.states name onb }
      match set_param s1 name "state" (pBool onb) true with
      | (.ok _, s2) => (.ok true, s2)
      | (.error _, _) => (.ok false, s1)

/-- Embeds `set_actor` as callable once `self._inited` already holds (then
`_ensure_inited` is a no-op); used by `_restore_state_in_all_devices`,
which only runs after `_inited` is set. -/
def set_actor_inited (s : AmState) (name : String) (onb : Bool) : Except PyErr Bool × AmState :=
  if ¬ ahas s.devices name then (.error .unknownActuator, s)
  else set_actor_body s name onb

/-- One step of `_restore_state_in_all_devices` (src/actuators.py:363):
for a snapshot entry with a present device, `set_actor(name,
self._params[name]["state"])`; a `KeyError` from the missing cache
entry is caught and skipped. -/
def restore_one (s : AmState) (entry : String × Option Device) : AmState :=
  match entry.2 with
  | none => s
  | some _ =>
    match (alookup s.params entry.1).bind (fun m => alookup m "state") with
    | none => s
    | some v => (set_actor_inited s entry.1 (pyBool v)).2

/-- Embeds `SqlSensorData.load_actuator_params` (src/db.py:251): collect every
`actuator-{name}-{param}` key, splitting the suffix at its first `-`
and parsing the value; malformed keys are skipped. -/
def load_actuator_params (kv : List (String × String)) :
    List (String × List (String × PValue)) :=
  kv.foldl
    (fun (out : List (String × List (String × PValue))) (p : String × String) =>
      if strStartsWith p.1 "actuator-" then
        match splitOnce '-' (strDrop p.1 9).toList with
        | none => out
        | some (a, b) =>
          let name := String.mk a
          let par := String.mk b
          aset out name (aset ((alookup out name).getD []) par (pyParseNV p.2))
      else out)
    []

/-- The merge loop `self._params.setdefault(name, {}).update(kv)` used
by `init_if_needed` when reloading parameters. -/
def mergeParams (ps loaded : List (String × List (String × PValue))) :
    List (String × List (String × PValue)) :=
  loaded.foldl
    (fun acc p =>
      aset acc p.1 (p.2.foldl (fun m q => aset m q.1 q.2) ((alookup acc p.1).getD [])))
    ps

/-- Embeds `ActuatorManager.init_if_needed` (src/actuators.py:90): builds the
devices from the configuration, resets all logical states to `False`,
marks the manager inited, reloads parameters from the database when one
is open (the stray `self.s` read that follows raises `AttributeError`,
swallowed by the surrounding `except`), and restores the persisted
state into every present device. -/
def init_if_needed (s : AmState) : AmState :=
  if s.inited then s
  else
    let s1 := { s with
      devices := s.config,
      states := s.config.map (fun (p : String × Option Device) => (p.1, false)),
      inited := true }
    let s2 :=
      match s1.db with
      | some db =>
        if db.ok then { s1 with params := mergeParams s1.params (load_actuator_params db.kv) }
        else s1
      | none => s1
    s2.devices.foldl restore_one s2

/-- Embeds `ActuatorManager._ensure_inited`. -/
def ensure_inited (s : AmState) : AmState :=
  if s.inited then s else init_if_needed s

/-- Embeds `ActuatorManager.set_actor` (src/actuators.py:337): name guard,
`_ensure_inited`, then the guarded body. -/
def set_actor (s : AmState) (name : String) (onb : Bool) : Except PyErr Bool × AmState :=
  if ¬ ahas s.devices name then (.error .unknownActuator, s)
  else set_actor_body (ensure_inited s) name onb

/-- Embeds `ActuatorManager.get_actor_state` (src/actuators.py:371): name
guard on `self._states`, `_ensure_inited`, then either the cached
logical state (no device, or a raised hardware read) or the physical
`is_active` value, which is also written back into `self._states` and
the parameter cache (a `KeyError` on the cache write is caught after
`self._states` has already been updated). -/
def get_actor_state (s0 : AmState) (name : String) : Except PyErr Bool × AmState :=
  if ¬ ahas s0.states name then (.error .unknownActuator, s0)
  else
    let s := ensure_inited s0
    match (alookup s.devices name).getD none with
    | none =>
      match alookup s.states name with
      | some b => (.ok b, s)
      | none => (.error .unknownActuator, s)
    | some d =>
      match devIsActive d with
      | none =>
        match alookup s.states name with
        | some b => (.ok b, s)
        | none => (.error .unknownActuator, s)
      | some st =>
        let s1 := { s with states := aset s.states name st }
        if ahas s.params name then
          let m := (alookup s.params name).getD []
          (.ok st, { s1 with params := aset s.params name (aset m "state" (pBool st)) })
        else (.ok st, s1)

end Act

namespace Web

/-!
Embedding of the `src/web/` stream: `actuators/devices.py`
(`LedDevice`, `RelayDevice`), `actuators/params.py`
(`ParamRepository`), `actuators/manager.py` (`ActuatorManager`) and
`web/thermostat.py` (`Thermostat`).  The manager creates
`self._lock: threading.RLock` in `__init__`; the state carries a
`lockCount` field that counts lock acquisitions, and every embedded
method body increments it once per `with self._lock` block appearing in
its source — the `web` manager methods contain none, so none of the
functions below touch it.
-/

open PyModel PyModel.PValue

/-- Embeds `LedDevice` (src/web/actuators/devices.py:29): `pin` present means
a real gpiozero handle exists; `state` is `self._state`, `hwOn` the
physical output of the handle when present. -/
structure LedDevice : Type where
  pin : Option Nat
  state : Bool
  hwOn : Bool
  deriving DecidableEq, Repr

/-- Embeds `RelayDevice` (src/web/actuators/devices.py:82): like `LedDevice`
plus the plain `mode` and `setpoint` fields the manager mutates. -/
structure RelayDevice : Type where
  pin : Option Nat
  state : Bool
  hwOn : Bool
  mode : PValue
  setpoint : ℚ

/-- Embeds `LedDevice.set_state`: always records the logical state, and drives
the hardware when a handle exists. -/
def ledSetState (d : LedDevice) (onb : Bool) : LedDevice :=
  match d.pin with
  | some _ => { d with state := onb, hwOn := onb }
  | none => { d with state := onb }

/-- Embeds `RelayDevice.set_state`: same shape as the LED variant. -/
def relaySetState (d : RelayDevice) (onb : Bool) : RelayDevice :=
  match d.pin with
  | some _ => { d with state := onb, hwOn := onb }
  | none => { d with state := onb }

/-- Embeds `SensorConfig` (src/web/actuators/manager.py:13): one configured
sensor owns one LED and one relay device. -/
structure SensorConfig : Type where
  led : LedDevice
  relay : RelayDevice

/-- The `web` `ActuatorManager` plus its collaborators: `sensors` is
`self._sensors`, `cache` the `ParamRepository._params` dictionary, `db`
the sqlite nonvolatile store every `SqlSensorData()` context manager
opens, `temps` the latest-temperature rows of the sensor-data table
(read-only external collaborator), and `lockCount` the number of
`with self._lock` acquisitions performed so far. -/
structure WState : Type where
  sensors : List (String × SensorConfig)
  cache : List (String × List (String × PValue))
  db : DbState
  temps : String → Option ℚ
  lockCount : Nat

/-- Key layout `f"{NV_PREFIX}{name}-{param}"` of
src/web/actuators/params.py. -/
def nvKeyW (name param : String) : String :=
  "actuator-" ++ name ++ "-" ++ param

/-- Embeds `ParamRepository.set_param` (src/web/actuators/params.py:41): the
cache is written unconditionally; when `persist`, `save_actuator_param`
stores `str(value)` and any database exception is swallowed and
logged. -/
def set_param (s : WState) (name param : String) (value : PValue) (persist : Bool) : WState :=
  let m := (alookup s.cache name).getD []
  let s1 := { s with cache := aset s.cache name (aset m param value) }
  if persist then
    match nv_set s1.db (nvKeyW name param) (pyStr value) with
    | some db2 => { s1 with db := db2 }
    | none => s1
  else s1

/-- Embeds `ParamRepository.get_param` (src/web/actuators/params.py:72): cache
hit wins; otherwise one `nv_get` is attempted and its raw string result
(or `default` on a missing key or a database exception) is returned.
The cache is not written. -/
def get_param (s : WState) (name param : String) (dflt : PValue) : PValue :=
  match (alookup s.cache name).bind (fun m => alookup m param) with
  | some v => v
  | none =>
    match nv_get s.db (nvKeyW name param) with
    | none => dflt
    | some none => dflt
    | some (some v) => pStr v

/-- Embeds `ActuatorManager.list_sensors` (src/web/actuators/manager.py:40). -/
def list_sensors (s : WState) : List String :=
  s.sensors.map (fun p => p.1)

/-- Embeds `ActuatorManager.get_sensor_temperature`
(src/web/actuators/manager.py:43): reads the latest row for the sensor
from the sensor-data table; any exception (including an unavailable
database) is caught and yields `None`. -/
def get_sensor_temperature (s : WState) (sensorId : String) : Option ℚ :=
  if s.db.ok then s.temps sensorId else none

/-- Embeds `ActuatorManager.get_setpoint` (src/web/actuators/manager.py:55):
`KeyError` for an unknown sensor. -/
def get_setpoint (s : WState) (sensor : String) : Except PyErr ℚ :=
  match alookup s.sensors sensor with
  | none => .error .unknownActuator
  | some sc => .ok sc.relay.setpoint

/-- Embeds `ActuatorManager.set_setpoint` (src/web/actuators/manager.py:58):
no validation of any kind; the relay field and the parameter store are
written. -/
def set_setpoint (s : WState) (sensor : String) (v : ℚ) : Except PyErr Unit × WState :=
  match alookup s.sensors sensor with
  | none => (.error .unknownActuator, s)
  | some sc =>
    let s1 := { s with sensors := aset s.sensors sensor { sc with relay := { sc.relay with setpoint := v } } }
    (.ok (), set_param s1 sensor "setpoint" (pFloat v) true)

/-- Embeds `ActuatorManager.get_relay_mode` (src/web/actuators/manager.py:62). -/
def get_relay_mode (s : WState) (sensor : String) : Except PyErr PValue :=
  match alookup s.sensors sensor with
  | none => .error .unknownActuator
  | some sc => .ok sc.relay.mode

/-- Embeds `ActuatorManager.set_relay_mode` (src/web/actuators/manager.py:65):
no validation; the relay field and the parameter store are written. -/
def set_relay_mode (s : WState) (sensor mode : String) : Except PyErr Unit × WState :=
  match alookup s.sensors sensor with
  | none => (.error .unknownActuator, s)
  | some sc =>
    let s1 := { s with sensors := aset s.sensors sensor { sc with relay := { sc.relay with mode := pStr mode } } }
    (.ok (), set_param s1 sensor "relay_mode" (pStr mode) true)

/-- Embeds `ActuatorManager.get_relay_state` (src/web/actuators/manager.py:69):
the relay's logical state. -/
def get_relay_state (s : WState) (sensor : String) : Except PyErr Bool :=
  match alookup s.sensors sensor with
  | none => .error .unknownActuator
  | some sc => .ok sc.relay.state

/-- Embeds `ActuatorManager.turn_on_relay` (src/web/actuators/manager.py:72). -/
def turn_on_relay (s : WState) (sensor : String) : Except PyErr Unit × WState :=
  match alookup s.sensors sensor with
  | none => (.error .unknownActuator, s)
  | some sc =>
    let s1 := { s with sensors := aset s.sensors sensor { sc with relay := relaySetState sc.relay true } }
    (.ok (), set_param s1 sensor "relay_state" (pBool true) true)

/-- Embeds `ActuatorManager.turn_off_relay` (src/web/actuators/manager.py:76). -/
def turn_off_relay (s : WState) (sensor : String) : Except PyErr Unit × WState :=
  match alookup s.sensors sensor with
  | none => (.error .unknownActuator, s)
  | some sc =>
    let s1 := { s with sensors := aset s.sensors sensor { sc with relay := relaySetState sc.relay false } }
    (.ok (), set_param s1 sensor "relay_state" (pBool false) true)

/-- Embeds `ActuatorManager.get_actor_state` (src/web/actuators/manager.py:80):
dispatch on the `led_` / `relay_` name shape, returning the logical
device state; anything else raises `KeyError`. -/
def get_actor_state (s : WState) (actorName : String) : Except PyErr Bool :=
  if strStartsWith actorName "led_" then
    match alookup s.sensors (strDrop actorName 4) with
    | none => .error .unknownActuator
    | some sc => .ok sc.led.state
  else if strStartsWith actorName "relay_" then
    match alookup s.sensors (strDrop actorName 6) with
    | none => .error .unknownActuator
    | some sc => .ok sc.relay.state
  else .error .unknownActuator

/-- Embeds `ActuatorManager.set_actor` (src/web/actuators/manager.py:90): same
dispatch; drives the device and mirrors the state into the parameter
store. -/
def set_actor (s : WState) (actorName : String) (onb : Bool) : Except PyErr Unit × WState :=
  if strStartsWith actorName "led_" then
    match alookup s.sensors (strDrop actorName 4) with
    | none => (.error .unknownActuator, s)
    | some sc =>
      let sensor := strDrop actorName 4
      let s1 := { s with sensors := aset s.sensors sensor { sc with led := ledSetState sc.led onb } }
      (.ok (), set_param s1 sensor "led_state" (pBool onb) true)
  else if strStartsWith actorName "relay_" then
    match alookup s.sensors (strDrop actorName 6) with
    | none => (.error .unknownActuator, s)
    | some sc =>
      let sensor := strDrop actorName 6
      let s1 := { s with sensors := aset s.sensors sensor { sc with relay := relaySetState sc.relay onb } }
      (.ok (), set_param s1 sensor "relay_state" (pBool onb) true)
  else (.error .unknownActuator, s)

/-- One sensor entry of `ActuatorManager.load_params_from_db`
(src/web/actuators/manager.py:149): each restored value is read through
the parameter store (whose database reads return raw strings), coerced
with `bool` / `float` or assigned as-is, and applied to the devices.  A
failed `float` conversion raises out of the constructor. -/
def load_params_one (s : WState) (name : String) : Except PyErr WState :=
  match alookup s.sensors name with
  | none => .ok s
  | some sc =>
    let ledState := get_param s name "led_state" (pBool false)
    let sc1 := { sc with led := ledSetState sc.led (pyBool ledState) }
    let relayState := get_param s name "relay_state" (pBool false)
    let sc2 := { sc1 with relay := relaySetState sc1.relay (pyBool relayState) }
    let relayMode := get_param s name "relay_mode" (pStr "auto")
    let sc3 := { sc2 with relay := { sc2.relay with mode := relayMode } }
    let sp := get_param s name "setpoint" (pFloat 25)
    match pyFloatOf sp with
    | none => .error .convError
    | some q =>
      .ok { s with sensors := aset s.sensors name { sc3 with relay := { sc3.relay with setpoint := q } } }

/-- Embeds `ActuatorManager.load_params_from_db`: restore every configured
sensor in order. -/
def load_params_from_db (s : WState) : Except PyErr WState :=
  (s.sensors.map (fun p => p.1)).foldlM load_params_one s

/-- Embeds `ActuatorManager.__init__` (src/web/actuators/manager.py:21): build
fresh devices for the configured sensors (each entry gives the optional
LED pin and relay pin; `LedDevice._state` starts `False`, a fresh
`RelayDevice` starts `False`/`"auto"`/`25.0`), start with an empty
parameter cache, and restore persisted state from the given database
(the signal/atexit registration has no effect on this state). -/
def mk_manager (cfg : List (String × Option Nat × Option Nat)) (db : DbState)
    (temps : String → Option ℚ) : Except PyErr WState :=
  let sensors := cfg.map (fun c =>
    (c.1, { led := { pin := c.2.1, state := false, hwOn := false },
            relay := { pin := c.2.2, state := false, hwOn := false,
                       mode := pStr "auto", setpoint := 25 } : SensorConfig }))
  load_params_from_db { sensors := sensors, cache := [], db := db, temps := temps, lockCount := 0 }

/-- The hysteresis decision of `Thermostat._run_iteration`
(src/web/thermostat.py:158 and src/thermostat.py:137, identical logic):
`temp <= sp - hys` demands ON, else `temp >= sp + hys` demands OFF,
else the deadband demands nothing. -/
def decision (temp sp hys : ℚ) : Option Bool :=
  if temp ≤ sp - hys then some true
  else if temp ≥ sp + hys then some false
  else none

/-- One sensor of `Thermostat._run_iteration`
(src/web/thermostat.py:144): skip unless the relay mode is `"auto"`,
skip without a temperature, then apply the decision and command the
relay only when the desired state differs from the current one.  Any
exception while processing the sensor is caught and the iteration
continues; issued commands are recorded as `(sensor, state)` pairs. -/
def run_iteration_step (hys : ℚ) (acc : WState × List (String × Bool)) (sensorName : String) :
    WState × List (String × Bool) :=
  let m := acc.1
  match get_relay_mode m sensorName with
  | .error _ => acc
  | .ok mode =>
    if mode ≠ pStr "auto" then acc
    else
      match get_sensor_temperature m sensorName with
      | none => acc
      | some temp =>
        match get_setpoint m sensorName, get_relay_state m sensorName with
        | .ok sp, .ok cur =>
          match decision temp sp hys with
          | none => acc
          | some desired =>
            if desired ≠ cur then
              if desired then ((turn_on_relay m sensorName).2, acc.2 ++ [(sensorName, true)])
              else ((turn_off_relay m sensorName).2, acc.2 ++ [(sensorName, false)])
            else acc
        | _, _ => acc

/-- The `Thermostat` object (src/web/thermostat.py:39): the optional
manager, the clamped interval and the hysteresis width.  The background
thread and stop event are run-time machinery; one loop iteration is
`run_iteration` below. -/
structure Thermostat : Type where
  act : Option WState
  interval : Int
  hysteresis : ℚ

/-- Embeds `Thermostat.__init__`: `interval = max(1, int(interval))`. -/
def mk_thermostat (act : Option WState) (interval : Int) (hysteresis : ℚ) : Thermostat :=
  { act := act, interval := max 1 interval, hysteresis := hysteresis }

/-- Embeds `Thermostat._run_iteration` (src/web/thermostat.py:134): with no
manager it logs a warning and returns at once; otherwise every sensor
is processed in registry order.  The result is the manager state after
the cycle plus the list of issued relay commands. -/
def run_iteration (act : Option WState) (hys : ℚ) :
    Option WState × List (String × Bool) :=
  match act with
  | none => (none, [])
  | some m =>
    let r := (list_sensors m).foldl (run_iteration_step hys) (m, [])
    (some r.1, r.2)

/-- Embeds `Thermostat.thermostat_once` (src/web/thermostat.py:93): a single
`_run_iteration` call. -/
def thermostat_once (t : Thermostat) : Option WState × List (String × Bool) :=
  run_iteration t.act t.hysteresis

end Web

namespace PyModel

open PValue

theorem web_set_param_cache (s : Web.WState) (n p : String) (v : PValue) (b : Bool) :
    (Web.set_param s n p v b).cache
      = aset s.cache n (aset ((alookup s.cache n).getD []) p v) := by
  unfold Web.set_param
  cases b <;> simp [nv_set] <;> split <;> rfl

theorem web_set_param_sensors (s : Web.WState) (n p : String) (v : PValue) (b : Bool) :
    (Web.set_param s n p v b).sensors = s.sensors := by
  unfold Web.set_param
  cases b <;> simp [nv_set] <;> split <;> rfl

theorem web_set_param_lock (s : Web.WState) (n p : String) (v : PValue) (b : Bool) :
    (Web.set_param s n p v b).lockCount = s.lockCount := by
  unfold Web.set_param
  cases b <;> simp [nv_set] <;> split <;> rfl

theorem web_get_param_cache_hit (s : Web.WState) (n p : String) (v : PValue) (dflt : PValue)
    (h : (alookup s.cache n).bind (fun m => alookup m p) = some v) :
    Web.get_param s n p dflt = v := by
  unfold Web.get_param
  simp [h]

end PyModel

open PyModel PyModel.PValue

/-- Claim C10: a `Thermostat` constructed with `act=None` is safe to
run: `thermostat_once` (and with it the body of every background-loop
iteration, which is the same `_run_iteration` call) returns normally,
issues no actuator command and mutates no actuator state. -/
theorem c10_thermostat_without_manager_safe (interval : Int) (hys : ℚ) :
    Web.thermostat_once (Web.mk_thermostat none interval hys) = (none, []) ∧
    Web.run_iteration none hys = (none, []) :=
  ⟨rfl, rfl⟩

/-- Claim C5: `ParamRepository.set_param` writes the cache
unconditionally and returns normally even when the durable write
fails (`set_param` is a total function of the embedded state, the
database exception being swallowed inside it); a following `get_param`
for the same key returns exactly the value just written, for every
database state — including one that stays unavailable forever — and a
failed store leaves the database untouched. -/
theorem c5_param_store_cache_authoritative (s : Web.WState) (name param : String)
    (v : PValue) (persist : Bool) (dflt : PValue) :
    Web.get_param (Web.set_param s name param v persist) name param dflt = v ∧
    (s.db.ok = false → (Web.set_param s name param v persist).db = s.db) := by
  constructor
  · apply web_get_param_cache_hit
    rw [web_set_param_cache]
    simp [alookup_aset_self]
  · intro hdb
    unfold Web.set_param
    cases persist <;> simp [nv_set, hdb]

/-- Claim C3: for every state of the web manager and every actor name,
a successful `set_actor(name, True)` followed by `get_actor_state(name)`
yields `True` — the logical state is what is read back, so devices with
and without a hardware pin behave identically at this interface. -/
theorem c3_set_actor_get_actor_roundtrip (s : Web.WState) (actorName : String)
    (h : (Web.set_actor s actorName true).1 = .ok ()) :
    Web.get_actor_state (Web.set_actor s actorName true).2 actorName = .ok true := by
  unfold Web.set_actor at h ⊢
  unfold Web.get_actor_state
  by_cases hled : strStartsWith actorName "led_" = true
  · simp only [hled, if_true]
    cases hs : alookup s.sensors (strDrop actorName 4) with
    | none => simp [hled, hs] at h
    | some sc =>
      simp [hs, web_set_param_sensors, alookup_aset_self, Web.ledSetState]
      split
      · rfl
      · rfl
  · by_cases hrel : strStartsWith actorName "relay_" = true
    · simp only [hled, hrel, if_false, if_true]
      cases hs : alookup s.sensors (strDrop actorName 6) with
      | none => simp [hled, hrel, hs] at h
      | some sc =>
        simp [hled, hs, web_set_param_sensors, alookup_aset_self, Web.relaySetState]
        split
        · rfl
        · rfl
    · simp [hled, hrel] at h

/-- Concrete witness for claim C3: a hardware-backed relay on sensor
`"S"`. -/
def c3_state : Web.WState :=
  { sensors := [("S", { led := { pin := none, state := false, hwOn := false },
                        relay := { pin := some 23, state := false, hwOn := false,
                                   mode := pStr "auto", setpoint := 25 } })],
    cache := [], db := { kv := [], ok := true }, temps := fun _ => none, lockCount := 0 }

theorem c3_set_actor_get_actor_roundtrip_witness :
    Web.get_actor_state (Web.set_actor c3_state "relay_S" true).2 "relay_S" = .ok true :=
  c3_set_actor_get_actor_roundtrip c3_state "relay_S" (by rfl)

/-- Concrete state for claim C9: one registered sensor, no lock held. -/
def c9_state : Web.WState :=
  { sensors := [("S", { led := { pin := some 18, state := false, hwOn := false },
                        relay := { pin := some 23, state := false, hwOn := false,
                                   mode := pStr "auto", setpoint := 25 } })],
    cache := [], db := { kv := [], ok := true }, temps := fun _ => none, lockCount := 0 }

/-- Claim C9 (refuting evidence): in the web manager the
`threading.RLock` created in `__init__` is never acquired — every
mutating operation leaves the lock-acquisition counter untouched while
it mutates actuator state, so no registry read or write executes under
the registry lock.  The final conjuncts exhibit the concrete mutation:
`set_actor` flips the relay of `c9_state` without ever entering a
`with self._lock` block. -/
theorem c9_web_manager_never_acquires_lock (s : Web.WState) (actorName : String) (onb : Bool)
    (v : ℚ) (mode : String) :
    ((Web.set_actor s actorName onb).2).lockCount = s.lockCount ∧
    ((Web.turn_on_relay s actorName).2).lockCount = s.lockCount ∧
    ((Web.turn_off_relay s actorName).2).lockCount = s.lockCount ∧
    ((Web.set_relay_mode s actorName mode).2).lockCount = s.lockCount ∧
    ((Web.set_setpoint s actorName v).2).lockCount = s.lockCount ∧
    Web.get_actor_state (Web.set_actor c9_state "relay_S" true).2 "relay_S" = .ok true ∧
    ((Web.set_actor c9_state "relay_S" true).2).lockCount = 0 := by
  refine ⟨?_, ?_, ?_, ?_, ?_, rfl, rfl⟩
  · unfold Web.set_actor
    split
    · split
      · rfl
      · rw [web_set_param_lock]
    · split
      · split
        · rfl
        · rw [web_set_param_lock]
      · rfl
  · unfold Web.turn_on_relay
    split
    · rfl
    · rw [web_set_param_lock]
  · unfold Web.turn_off_relay
    split
    · rfl
    · rw [web_set_param_lock]
  · unfold Web.set_relay_mode
    split
    · rfl
    · rw [web_set_param_lock]
  · unfold Web.set_setpoint
    split
    · rfl
    · rw [web_set_param_lock]

namespace PyModel

theorem ahas_aset_self {α : Type} (l : List (String × α)) (k : String) (v : α) :
    ahas (aset l k v) k = true := by
  simp [ahas, alookup_aset_self]

end PyModel

/-- Claim C1: on the manager implementing the spec's `set_setpoint(name,
value, min=-50, max=150)` contract (src/actuators.py), every in-range
value round-trips exactly through `set_setpoint`/`get_setpoint`, and
every out-of-range value makes `set_setpoint` raise the out-of-range
`ValueError` with the state — in particular the stored setpoint —
completely unchanged. -/
theorem c1_setpoint_range_roundtrip (s : Act.AmState) (name : String) (v : ℚ)
    (hreg : ahas s.params name = true) :
    ((-50 ≤ v ∧ v ≤ 150) →
      (Act.set_setpoint s name v true (-50) 150).1 = .ok () ∧
      Act.get_setpoint (Act.set_setpoint s name v true (-50) 150).2 name = .ok v) ∧
    (¬(-50 ≤ v ∧ v ≤ 150) →
      Act.set_setpoint s name v true (-50) 150 = (.error .outOfRange, s)) := by
  constructor
  · intro hin
    have hparams : ((Act.set_setpoint s name v true (-50) 150).2).params
        = aset s.params name
            (aset ((alookup s.params name).getD []) "setpoint" (pFloat v)) := by
      unfold Act.set_setpoint
      simp only [hin.1, hin.2, and_self, not_true_eq_false, if_false, hreg,
        Bool.true_eq_false, if_true]
      split
      · split <;> rfl
      · rfl
    constructor
    · unfold Act.set_setpoint
      simp only [hin.1, hin.2, and_self, not_true_eq_false, if_false, hreg,
        Bool.true_eq_false, if_true]
      split
      · split <;> rfl
      · rfl
    · unfold Act.get_setpoint
      rw [hparams]
      simp [ahas, alookup_aset_self, pyFloatOf]
  · intro hout
    unfold Act.set_setpoint
    rw [if_pos hout]

/-- Concrete registry state for the C1 witness: one registered relay
actuator `"A"`, no database. -/
def c1_state : Act.AmState :=
  { config := [], devices := [("A", none)], states := [("A", false)],
    params := [("A", [])], db := none, inited := true }

theorem c1_setpoint_range_roundtrip_witness :
    ahas c1_state.params "A" = true ∧
    ((-50 : ℚ) ≤ 30 ∧ (30 : ℚ) ≤ 150) ∧
    Act.get_setpoint (Act.set_setpoint c1_state "A" 30 true (-50) 150).2 "A" = .ok 30 ∧
    ¬((-50 : ℚ) ≤ 500 ∧ (500 : ℚ) ≤ 150) ∧
    Act.set_setpoint c1_state "A" 500 true (-50) 150 = (.error .outOfRange, c1_state) :=
  ⟨rfl, by norm_num,
   ((c1_setpoint_range_roundtrip c1_state "A" 30 rfl).1 (by norm_num)).2,
   by norm_num,
   (c1_setpoint_range_roundtrip c1_state "A" 500 rfl).2 (by norm_num)⟩

/-- Claim C4: on the manager implementing the spec's `InvalidMode`
contract (src/actuators.py), `set_relay_mode` with a mode outside
`{auto, on, off}` raises the invalid-mode `ValueError` with the state
untouched, while a mode inside the set is stored and read back exactly
by `get_relay_mode`. -/
theorem c4_relay_mode_validation (s : Act.AmState) (name mode : String)
    (hreg : ahas s.params name = true) :
    (mode ∉ Act.allowedRelayModes →
      Act.set_relay_mode s name mode true = (.error .invalidMode, s)) ∧
    (mode ∈ Act.allowedRelayModes →
      (Act.set_relay_mode s name mode true).1 = .ok () ∧
      Act.get_relay_mode (Act.set_relay_mode s name mode true).2 name = .ok mode) := by
  constructor
  · intro hout
    unfold Act.set_relay_mode
    rw [if_pos hout]
  · intro hin
    have hparams : ((Act.set_relay_mode s name mode true).2).params
        = aset s.params name
            (aset ((alookup s.params name).getD []) "relay_mode" (pStr mode)) := by
      unfold Act.set_relay_mode
      simp only [hin, not_true_eq_false, if_false, hreg, Bool.true_eq_false, if_true]
      split
      · split <;> rfl
      · rfl
    constructor
    · unfold Act.set_relay_mode
      simp only [hin, not_true_eq_false, if_false, hreg, Bool.true_eq_false, if_true]
      split
      · split <;> rfl
      · rfl
    · unfold Act.get_relay_mode
      rw [hparams]
      simp [ahas, alookup_aset_self, pyStr]

/-- Concrete registry state for the C4 witness. -/
def c4_state : Act.AmState :=
  { config := [], devices := [("A", none)], states := [("A", false)],
    params := [("A", [])], db := none, inited := true }

theorem c4_relay_mode_validation_witness :
    ahas c4_state.params "A" = true ∧
    "banana" ∉ Act.allowedRelayModes ∧
    Act.set_relay_mode c4_state "A" "banana" true = (.error .invalidMode, c4_state) ∧
    "on" ∈ Act.allowedRelayModes ∧
    Act.get_relay_mode (Act.set_relay_mode c4_state "A" "on" true).2 "A" = .ok "on" :=
  ⟨rfl, by decide,
   (c4_relay_mode_validation c4_state "A" "banana" rfl).1 (by decide),
   by decide,
   ((c4_relay_mode_validation c4_state "A" "on" rfl).2 (by decide)).2⟩

/-- Claim C6: `get_param` of the parameter store implementing the
read-through contract (src/actuators.py `get_param`/`load_param`)
returns the cached value on a cache hit; on a miss it reads the durable
store, seeds the cache with the parsed result when one is found (so a
second `get_param` — with any default — answers from the cache), and
returns the supplied default when there is no database, the database
read raises, or the key is absent. -/
theorem c6_get_param_read_through (s : Act.AmState) (name param : String) (dflt : PValue)
    (hreg : ahas s.params name = true) :
    (∀ v, (alookup s.params name).bind (fun m => alookup m param) = some v →
      Act.get_param s name param dflt = (.ok v, s)) ∧
    ((alookup s.params name).bind (fun m => alookup m param) = none →
      (s.db = none → Act.get_param s name param dflt = (.ok dflt, s)) ∧
      (∀ db, s.db = some db → db.ok = false →
        Act.get_param s name param dflt = (.ok dflt, s)) ∧
      (∀ db, s.db = some db → db.ok = true →
        alookup db.kv (Act.nvKey name param) = none →
        Act.get_param s name param dflt = (.ok dflt, s)) ∧
      (∀ db raw, s.db = some db → db.ok = true →
        alookup db.kv (Act.nvKey name param) = some raw →
        Act.get_param s name param dflt
          = (.ok (pyParseNV raw),
             { s with params := (aset s.params name
                 (aset ((alookup s.params name).getD []) param (pyParseNV raw))) }) ∧
        (∀ dflt2,
          (Act.get_param
            { s with params := (aset s.params name
                (aset ((alookup s.params name).getD []) param (pyParseNV raw))) }
            name param dflt2).1 = .ok (pyParseNV raw)))) := by
  constructor
  · intro v hv
    unfold Act.get_param
    simp [hreg, hv]
  · intro hmiss
    refine ⟨?_, ?_, ?_, ?_⟩
    · intro hdb
      unfold Act.get_param
      simp [hreg, hmiss, hdb]
    · intro db hdb hko
      unfold Act.get_param Act.load_param
      simp [hreg, hmiss, hdb, nv_get, hko]
    · intro db hdb hok habs
      unfold Act.get_param Act.load_param
      simp [hreg, hmiss, hdb, nv_get, hok, habs]
    · intro db raw hdb hok hraw
      constructor
      · unfold Act.get_param Act.load_param
        simp [hreg, hmiss, hdb, nv_get, hok, hraw]
      · intro dflt2
        unfold Act.get_param
        simp [ahas, alookup_aset_self]

/-- Concrete state for the C6 witness: parameter absent from the cache
but present in the durable store as the raw string `"on"`. -/
def c6_state : Act.AmState :=
  { config := [], devices := [("A", none)], states := [("A", false)],
    params := [("A", [])],
    db := some { kv := [("actuator-A-relay_mode", "on")], ok := true },
    inited := true }

theorem c6_get_param_read_through_witness :
    ahas c6_state.params "A" = true ∧
    (alookup c6_state.params "A").bind (fun m => alookup m "relay_mode") = none ∧
    Act.get_param c6_state "A" "relay_mode" (pStr "auto")
      = (.ok (pStr "on"),
         { c6_state with params := [("A", [("relay_mode", pStr "on")])] }) ∧
    (Act.get_param
        { c6_state with params := [("A", [("relay_mode", pStr "on")])] }
        "A" "relay_mode" (pStr "whatever")).1 = .ok (pStr "on") := by
  have h := (c6_get_param_read_through c6_state "A" "relay_mode" (pStr "auto") rfl).2 rfl
  have h2 := h.2.2.2 { kv := [("actuator-A-relay_mode", "on")], ok := true } "on" rfl rfl rfl
  exact ⟨rfl, rfl, h2.1, h2.2 (pStr "whatever")⟩

namespace PyModel

theorem act_set_param_frame (s : Act.AmState) (n p : String) (v : PValue) (b : Bool) :
    ((Act.set_param s n p v b).2).states = s.states ∧
    ((Act.set_param s n p v b).2).devices = s.devices ∧
    ((Act.set_param s n p v b).2).inited = s.inited := by
  unfold Act.set_param Act.save_param
  dsimp only
  repeat' split
  all_goals exact ⟨rfl, rfl, rfl⟩

end PyModel

namespace PyModel

theorem act_set_actor_body_spec (s : Act.AmState) (name : String) (onb : Bool) :
    (∃ b, (Act.set_actor_body s name onb).1 = .ok b) ∧
    ((Act.set_actor_body s name onb).2).states = aset s.states name onb ∧
    ((Act.set_actor_body s name onb).2).inited = s.inited ∧
    ((Act.set_actor_body s name onb).2).devices
      = (match (alookup s.devices name).getD none with
         | none => s.devices
         | some d =>
           if d.cmdFails then s.devices
           else aset s.devices name (some { d with physical := onb })) := by
  unfold Act.set_actor_body
  rcases hdl : (alookup s.devices name).getD none with _ | d
  · rcases hsp : Act.set_param { s with states := aset s.states name onb }
        name "state" (pBool onb) true with ⟨res, s2⟩
    have hfr := act_set_param_frame { s with states := aset s.states name onb }
        name "state" (pBool onb) true
    rw [hsp] at hfr
    simp only [hsp]
    cases res with
    | ok u => exact ⟨⟨false, rfl⟩, hfr.1, hfr.2.2, hfr.2.1⟩
    | error e => exact ⟨⟨false, rfl⟩, rfl, rfl, rfl⟩
  · dsimp only
    by_cases hcf : d.cmdFails = true
    · have hds : Act.devSet d onb = none := by
        unfold Act.devSet
        rw [if_pos hcf]
      rw [hds]
      rcases hsp : Act.set_param { s with states := aset s.states name onb }
          name "state" (pBool onb) true with ⟨res, s2⟩
      have hfr := act_set_param_frame { s with states := aset s.states name onb }
          name "state" (pBool onb) true
      rw [hsp] at hfr
      simp only [hsp, hcf, if_true]
      cases res with
      | ok u => exact ⟨⟨false, rfl⟩, hfr.1, hfr.2.2, hfr.2.1⟩
      | error e => exact ⟨⟨false, rfl⟩, rfl, rfl, rfl⟩
    · simp only [Bool.not_eq_true] at hcf
      have hds : Act.devSet d onb = some { d with physical := onb } := by
        unfold Act.devSet
        rw [hcf]
        rfl
      rw [hds]
      dsimp only
      rcases hsp : Act.set_param
          { s with devices := aset s.devices name (some { d with physical := onb }),
                   states := aset s.states name onb }
          name "state" (pBool onb) true with ⟨res, s2⟩
      have hfr := act_set_param_frame
          { s with devices := aset s.devices name (some { d with physical := onb }),
                   states := aset s.states name onb }
          name "state" (pBool onb) true
      rw [hsp] at hfr
      rw [if_neg (by simp [hcf])]
      cases res with
      | ok u => exact ⟨⟨true, rfl⟩, hfr.1, hfr.2.2, hfr.2.1⟩
      | error e => exact ⟨⟨false, rfl⟩, rfl, rfl, rfl⟩

theorem act_get_actor_state_val (s : Act.AmState) (name : String) (b : Bool)
    (hin : s.inited = true) (hst : alookup s.states name = some b) :
    (Act.get_actor_state s name).1
      = (match (alookup s.devices name).getD none with
         | none => .ok b
         | some d => if d.readFails then .ok b else .ok d.physical) := by
  have hens : Act.ensure_inited s = s := by
    unfold Act.ensure_inited
    rw [if_pos hin]
  unfold Act.get_actor_state
  rw [if_neg (by simp [ahas, hst]), hens]
  dsimp only
  rcases hdl : (alookup s.devices name).getD none with _ | d
  · simp [hst]
  · unfold Act.devIsActive
    by_cases hrf : d.readFails = true
    · simp [hrf, hst]
    · simp only [Bool.not_eq_true] at hrf
      simp [hrf]
      split
      · rfl
      · rfl

theorem act_get_actor_state_post (s : Act.AmState) (name : String) (b : Bool)
    (hin : s.inited = true) (hst : alookup s.states name = some b) :
    alookup ((Act.get_actor_state s name).2).states name
      = (match (alookup s.devices name).getD none with
         | none => some b
         | some d => if d.readFails then some b else some d.physical) := by
  have hens : Act.ensure_inited s = s := by
    unfold Act.ensure_inited
    rw [if_pos hin]
  unfold Act.get_actor_state
  rw [if_neg (by simp [ahas, hst]), hens]
  dsimp only
  rcases hdl : (alookup s.devices name).getD none with _ | d
  · simp [hst]
  · unfold Act.devIsActive
    by_cases hrf : d.readFails = true
    · simp [hrf, hst]
    · simp only [Bool.not_eq_true] at hrf
      simp [hrf]
      split
      · simp [alookup_aset_self]
      · simp [alookup_aset_self]

end PyModel

/-- Registry state for claim C8: one actuator `"R"` whose hardware
handle raises on commands (`cmdFails`) but answers reads
(`is_active`). -/
def c8_state : Act.AmState :=
  { config := [("R", some { physical := false, cmdFails := true, readFails := false })],
    devices := [("R", some { physical := false, cmdFails := true, readFails := false })],
    states := [("R", false)], params := [("R", [])], db := none, inited := true }

/-- Claim C8 counterexample: on `c8_state`, `set_actor("R", True)`
raises nothing (it returns `False` for the failed hardware path) and
sets the logical state to `True`, yet the immediately following
`get_actor_state("R")` performs the hardware read, gets the stale
physical value and returns `False` — not the commanded value the claim
requires — and overwrites the logical state back to `False` as well. -/
theorem c8_counterexample_get_reads_hardware :
    (Act.set_actor c8_state "R" true).1 = .ok false ∧
    alookup ((Act.set_actor c8_state "R" true).2).states "R" = some true ∧
    (Act.get_actor_state (Act.set_actor c8_state "R" true).2 "R").1 = .ok false ∧
    alookup ((Act.get_actor_state (Act.set_actor c8_state "R" true).2 "R").2).states "R"
      = some false :=
  ⟨rfl, rfl, rfl, rfl⟩

/-- Claim C8 as amended: for an inited registry and a registered name,
`set_actor` never raises and always moves the logical state to the
commanded value; the following `get_actor_state` returns the commanded
value when the actuator is virtual, when the hardware read raises, or
when the hardware command succeeded — but when the command raised while
the read still works, it returns the physically observed (stale) state
instead, and re-syncs the stored logical state to that observed
value. -/
theorem c8_amended_commanded_intent (s : Act.AmState) (name : String) (onb : Bool)
    (hin : s.inited = true) (hdev : ahas s.devices name = true) :
    (∃ b, (Act.set_actor s name onb).1 = .ok b) ∧
    alookup ((Act.set_actor s name onb).2).states name = some onb ∧
    ((alookup s.devices name).getD none = none →
      (Act.get_actor_state (Act.set_actor s name onb).2 name).1 = .ok onb) ∧
    (∀ d, (alookup s.devices name).getD none = some d → d.readFails = true →
      (Act.get_actor_state (Act.set_actor s name onb).2 name).1 = .ok onb) ∧
    (∀ d, (alookup s.devices name).getD none = some d → d.cmdFails = false →
      (Act.get_actor_state (Act.set_actor s name onb).2 name).1 = .ok onb) ∧
    (∀ d, (alookup s.devices name).getD none = some d → d.cmdFails = true →
      d.readFails = false →
      (Act.get_actor_state (Act.set_actor s name onb).2 name).1 = .ok d.physical) ∧
    (∀ d, (alookup s.devices name).getD none = some d → d.cmdFails = true →
      d.readFails = false →
      alookup ((Act.get_actor_state (Act.set_actor s name onb).2 name).2).states name
        = some d.physical) := by
  have hens : Act.ensure_inited s = s := by
    unfold Act.ensure_inited
    rw [if_pos hin]
  have hset : Act.set_actor s name onb = Act.set_actor_body s name onb := by
    unfold Act.set_actor
    rw [if_neg (by simp [hdev]), hens]
  have hbody := act_set_actor_body_spec s name onb
  rw [hset]
  refine ⟨hbody.1, ?_, ?_, ?_, ?_, ?_, ?_⟩
  · rw [hbody.2.1, alookup_aset_self]
  · intro hnone
    rw [act_get_actor_state_val _ name onb (by rw [hbody.2.2.1, hin])
        (by rw [hbody.2.1, alookup_aset_self])]
    rw [hbody.2.2.2, hnone]
    simp [hnone]
  · intro d hd hrf
    rw [act_get_actor_state_val _ name onb (by rw [hbody.2.2.1, hin])
        (by rw [hbody.2.1, alookup_aset_self])]
    rw [hbody.2.2.2, hd]
    by_cases hcf : d.cmdFails = true
    · simp [hcf, hd, hrf]
    · simp only [Bool.not_eq_true] at hcf
      simp [hcf, hd, alookup_aset_self, hrf]
  · intro d hd hcf
    rw [act_get_actor_state_val _ name onb (by rw [hbody.2.2.1, hin])
        (by rw [hbody.2.1, alookup_aset_self])]
    rw [hbody.2.2.2, hd]
    simp [hcf, hd, alookup_aset_self, ite_self]
  · intro d hd hcf hrf
    rw [act_get_actor_state_val _ name onb (by rw [hbody.2.2.1, hin])
        (by rw [hbody.2.1, alookup_aset_self])]
    rw [hbody.2.2.2, hd]
    simp [hcf, hd, hrf]
  · intro d hd hcf hrf
    rw [act_get_actor_state_post _ name onb (by rw [hbody.2.2.1, hin])
        (by rw [hbody.2.1, alookup_aset_self])]
    rw [hbody.2.2.2, hd]
    simp [hcf, hd, hrf]


theorem c8_amended_commanded_intent_witness :
    c8_state.inited = true ∧
    ahas c8_state.devices "R" = true ∧
    alookup ((Act.set_actor c8_state "R" true).2).states "R" = some true :=
  ⟨rfl, rfl, (c8_amended_commanded_intent c8_state "R" true rfl rfl).2.1⟩

/-- A one-relay registry in automatic mode for exercising the
thermostat: sensor `name`, relay pin `pin`, current relay state `cur`,
setpoint `sp`, and the latest sensor reading `temp`. -/
def c2_single (name : String) (pin : Option Nat) (cur : Bool) (sp : ℚ) (temp : Option ℚ) :
    Web.WState :=
  { sensors := [(name, { led := { pin := none, state := false, hwOn := false },
                         relay := { pin := pin, state := cur, hwOn := false,
                                    mode := pStr "auto", setpoint := sp } })],
    cache := [], db := { kv := [], ok := true }, temps := fun _ => temp, lockCount := 0 }

namespace PyModel

theorem c2_cycle (name : String) (pin : Option Nat) (cur : Bool) (sp temp hys : ℚ) :
    (Web.run_iteration (some (c2_single name pin cur sp (some temp))) hys).2
      = (match Web.decision temp sp hys with
         | some d => if d = cur then [] else [(name, d)]
         | none => []) ∧
    ((Web.run_iteration (some (c2_single name pin cur sp (some temp))) hys).1.bind
        (fun m2 => (Web.get_relay_state m2 name).toOption))
      = some ((Web.decision temp sp hys).getD cur) := by
  unfold Web.run_iteration Web.list_sensors Web.run_iteration_step c2_single
  simp only [List.map, List.foldl]
  simp only [Web.get_relay_mode, Web.get_sensor_temperature, Web.get_setpoint,
    Web.get_relay_state, alookup, if_pos rfl]
  simp only [ne_eq, not_true_eq_false, if_false, reduceIte]
  rcases hdec : Web.decision temp sp hys with _ | d
  · simp [Web.get_relay_state, alookup, Except.toOption]
  · by_cases hec : d = cur
    · simp [hec, Web.get_relay_state, alookup, Except.toOption]
    · cases d
      · simp [hec, Web.turn_off_relay, Web.get_relay_state, alookup, aset,
          Web.relaySetState, web_set_param_sensors, Except.toOption]
        cases pin <;> simp [Except.toOption]
      · simp [hec, Web.turn_on_relay, Web.get_relay_state, alookup, aset,
          Web.relaySetState, web_set_param_sensors, Except.toOption]
        cases pin <;> simp [Except.toOption]

end PyModel

/-- Claim C2: the thermostat decision demands ON exactly when
`temp <= setpoint - hysteresis`, OFF exactly when `temp >= setpoint +
hysteresis` (both boundaries inclusive), and nothing exactly when the
temperature lies strictly inside the deadband; over one cycle of a
one-relay registry in auto mode with a reading available, a command is
issued exactly when the desired state differs from the current relay
state, and the relay ends in the decided state.  The trailing conjuncts
replay the spec scenario: setpoint 25.0, hysteresis 1.0, relay OFF,
temperatures 25.0, 26.5, 24.0 produce no command, no command, ON, and a
subsequent 26.0 on the now-ON relay produces OFF. -/
theorem c2_thermostat_hysteresis_cycle (temp sp hys : ℚ) (cur : Bool)
    (name : String) (pin : Option Nat) (hhys : 0 < hys) :
    (Web.decision temp sp hys = some true ↔ temp ≤ sp - hys) ∧
    (Web.decision temp sp hys = some false ↔ sp + hys ≤ temp) ∧
    (Web.decision temp sp hys = none ↔ (sp - hys < temp ∧ temp < sp + hys)) ∧
    ((Web.run_iteration (some (c2_single name pin cur sp (some temp))) hys).2
       = (match Web.decision temp sp hys with
          | some d => if d = cur then [] else [(name, d)]
          | none => [])) ∧
    ((Web.run_iteration (some (c2_single name pin cur sp (some temp))) hys).1.bind
        (fun m2 => (Web.get_relay_state m2 name).toOption)
       = some ((Web.decision temp sp hys).getD cur)) ∧
    ((Web.run_iteration (some (c2_single "S" none false 25 (some 25))) 1).2 = [] ∧
      ((Web.run_iteration (some (c2_single "S" none false 25 (some 25))) 1).1.bind
        (fun m2 => (Web.get_relay_state m2 "S").toOption)) = some false) ∧
    ((Web.run_iteration (some (c2_single "S" none false 25 (some 26.5))) 1).2 = [] ∧
      ((Web.run_iteration (some (c2_single "S" none false 25 (some 26.5))) 1).1.bind
        (fun m2 => (Web.get_relay_state m2 "S").toOption)) = some false) ∧
    ((Web.run_iteration (some (c2_single "S" none false 25 (some 24))) 1).2
        = [("S", true)] ∧
      ((Web.run_iteration (some (c2_single "S" none false 25 (some 24))) 1).1.bind
        (fun m2 => (Web.get_relay_state m2 "S").toOption)) = some true) ∧
    ((Web.run_iteration (some (c2_single "S" none true 25 (some 26))) 1).2
        = [("S", false)] ∧
      ((Web.run_iteration (some (c2_single "S" none true 25 (some 26))) 1).1.bind
        (fun m2 => (Web.get_relay_state m2 "S").toOption)) = some false) := by
  have hdec : Web.decision temp sp hys
      = if temp ≤ sp - hys then some true
        else if sp + hys ≤ temp then some false else none := rfl
  refine ⟨?_, ?_, ?_, (c2_cycle name pin cur sp temp hys).1,
    (c2_cycle name pin cur sp temp hys).2, ?_, ?_, ?_, ?_⟩
  · rw [hdec]
    split_ifs with h1 h2
    · simp [h1]
    · simp [h1]
    · simp [h1]
  · rw [hdec]
    split_ifs with h1 h2
    · simp only [Option.some.injEq, Bool.true_eq_false, false_iff]
      intro hc
      linarith
    · simp [h2]
    · simp [h2]
  · rw [hdec]
    split_ifs with h1 h2
    · simp only [reduceCtorEq, false_iff, not_and, not_lt]
      intro hc
      linarith
    · simp only [reduceCtorEq, false_iff, not_and, not_lt]
      intro hc
      linarith
    · simp only [true_iff]
      constructor
      · linarith [not_le.mp h1]
      · linarith [not_le.mp h2]
  · have h := c2_cycle "S" none false 25 25 1
    have hd : Web.decision 25 25 1 = none := by
      rw [show Web.decision 25 25 1
          = if (25 : ℚ) ≤ 25 - 1 then some true
            else if (25 : ℚ) + 1 ≤ 25 then some false else none from rfl]
      norm_num
    rw [hd] at h
    exact h
  · have h := c2_cycle "S" none false 25 26.5 1
    have hd : Web.decision 26.5 25 1 = some false := by
      rw [show Web.decision 26.5 25 1
          = if (26.5 : ℚ) ≤ 25 - 1 then some true
            else if (25 : ℚ) + 1 ≤ 26.5 then some false else none from rfl]
      norm_num
    rw [hd] at h
    exact h
  · have h := c2_cycle "S" none false 25 24 1
    have hd : Web.decision 24 25 1 = some true := by
      rw [show Web.decision 24 25 1
          = if (24 : ℚ) ≤ 25 - 1 then some true
            else if (25 : ℚ) + 1 ≤ 24 then some false else none from rfl]
      norm_num
    rw [hd] at h
    exact h
  · have h := c2_cycle "S" none true 25 26 1
    have hd : Web.decision 26 25 1 = some false := by
      rw [show Web.decision 26 25 1
          = if (26 : ℚ) ≤ 25 - 1 then some true
            else if (25 : ℚ) + 1 ≤ 26 then some false else none from rfl]
      norm_num
    rw [hd] at h
    exact h

theorem c2_thermostat_hysteresis_cycle_witness :
    (0 : ℚ) < 1 ∧ (Web.decision 24 25 1 = some true ↔ (24 : ℚ) ≤ 25 - 1) :=
  ⟨by norm_num, (c2_thermostat_hysteresis_cycle 24 25 1 false "S" none (by norm_num)).1⟩

/-- Configuration, empty store and silent sensor table for the claim C7
restart experiment (one virtual sensor `"DHT11_01"`). -/
def c7_cfg : List (String × Option Nat × Option Nat) := [("DHT11_01", none, none)]

def c7_db0 : DbState := { kv := [], ok := true }

def c7_temps : String → Option ℚ := fun _ => none

set_option maxRecDepth 10000 in
/-- Claim C7 (refuting evidence): construct a registry over an empty
store, write `relay_state=False`, `setpoint=30.0` and `mode="on"`
through it, then construct a fresh registry over the resulting store.
The store really holds the string `"False"`, and the fresh registry
restores the relay mode faithfully — but its restored relay logical
state is `True`, because `load_params_from_db` applies Python `bool` to
the raw string `"False"` read back from storage and every non-empty
string is truthy.  The persisted `False` is therefore restored as ON,
contradicting the round-trip the claim states for both boolean
values. -/
theorem c7_restart_restores_false_as_on :
    (Web.mk_manager c7_cfg c7_db0 c7_temps).bind (fun s0 =>
      (Web.mk_manager c7_cfg
          ((Web.set_relay_mode
            ((Web.set_setpoint ((Web.turn_off_relay s0 "DHT11_01").2) "DHT11_01" 30).2)
            "DHT11_01" "on").2).db c7_temps).map
        (fun s4 =>
          (Web.get_relay_state s4 "DHT11_01",
           Web.get_relay_mode s4 "DHT11_01",
           alookup ((Web.turn_off_relay s0 "DHT11_01").2).db.kv
             "actuator-DHT11_01-relay_state")))
    = .ok (.ok true, .ok (pStr "on"), some "False") := rfl
